import Mathlib

/-!
Verification development for the clickbadass verification rails:
the credential issuer and verifier (src/vc-issuer.ts), the SiloBridge
API handlers (src/api/silobridge-api.ts) and the demo dual-rail server
(src/demo/verification-server.js), shallowly embedded in Lean 4.

Conventions of the embedding:
* Timestamps are integers (milliseconds since the epoch, as produced by
  Date.now and preserved exactly by Date.toISOString round-trips); token
  expiries that the source keeps in unix seconds stay in seconds and are
  multiplied by 1000 exactly where the source does.
* JavaScript string values stay String; numeric amounts kept as strings
  by the source stay String and are parsed where the source calls
  parseFloat.
* JavaScript numbers are IEEE-754 binary64 values; they are modelled as
  the rationals fixed by the rounding function doubleRound below.
* Optional / possibly-undefined fields are Option; JavaScript truthiness
  tests on them are modelled by the explicit truthiness functions below
  (undefined, the empty string and 0 are falsy).
-/

namespace ClickBadass

/-- JavaScript truthiness of a possibly-undefined string: `undefined`
and the empty string are falsy. -/
def strTruthy : Option String → Bool
  | none => false
  | some s => s ≠ ""

/-- JavaScript truthiness of a possibly-undefined number: `undefined`
and 0 are falsy. -/
def numTruthy : Option ℚ → Bool
  | none => false
  | some q => q ≠ 0

/-- JavaScript truthiness of a possibly-undefined array: any present
array (even the empty one) is truthy. -/
def arrTruthy {α : Type} : Option (List α) → Bool
  | none => false
  | some _ => true

/-- Numeric value of a decimal digit character. -/
def digitVal (c : Char) : ℕ := c.toNat - 48

/-- Reads a non-empty all-digit character list as a natural number. -/
def digitsToNat : List Char → Option ℕ
  | [] => none
  | cs => if cs.all Char.isDigit then
      some (cs.foldl (fun a c => a * 10 + digitVal c) 0)
    else none

/-- Exact rational value of a plain decimal literal (optional leading
minus, digits, optional dot and fraction digits) — the number a decimal
string denotes before any floating-point rounding. Source amount
strings such as "50000.00" are of this form; parseFloat is modelled as
this exact parse followed by doubleRound. -/
def parseDec (s : String) : Option ℚ :=
  let cs := s.toList
  let signed : ℚ × List Char :=
    match cs with
    | '-' :: t => (-1, t)
    | _ => (1, cs)
  match signed.2.span (fun c => c ≠ '.') with
  | (ip, []) => (digitsToNat ip).map (fun n => signed.1 * (n : ℚ))
  | (ip, _dot :: fp) =>
    match digitsToNat ip, digitsToNat fp with
    | some n, some f =>
      some (signed.1 * ((n : ℚ) + (f : ℚ) / ((10 : ℚ) ^ fp.length)))
    | _, _ => none

/-- 2 ^ e over ℚ for an integer exponent. -/
def pow2 (e : ℤ) : ℚ := (2 : ℚ) ^ e

/-- Floor of the base-2 logarithm of a positive rational. -/
def floorLog2 (q : ℚ) : ℤ :=
  let e0 : ℤ := (q.num.natAbs.log2 : ℤ) - (q.den.log2 : ℤ)
  if q < pow2 e0 then e0 - 1 else e0

/-- Round a rational to the nearest integer, ties to even — the IEEE-754
round-to-nearest-even rule at integer granularity. -/
def rne (q : ℚ) : ℤ :=
  let f := ⌊q⌋
  let r := q - (f : ℚ)
  if r < 1 / 2 then f
  else if 1 / 2 < r then f + 1
  else if f % 2 = 0 then f else f + 1

/-- Round a positive rational to the IEEE-754 binary64 grid (53-bit
significand, round to nearest, ties to even). -/
def doubleRoundPos (q : ℚ) : ℚ :=
  let e := floorLog2 q
  (rne (q * pow2 (52 - e)) : ℚ) * pow2 (e - 52)

/-- The value a JavaScript number (IEEE-754 binary64) holds for the
exact rational q: round to nearest representable, ties to even. The
model covers the finite normal range, which contains every value these
handlers manipulate; overflow and subnormal underflow are out of range
for the data of this repository. -/
def doubleRound (q : ℚ) : ℚ :=
  if q = 0 then 0
  else if q < 0 then -(doubleRoundPos (-q)) else doubleRoundPos q

/-- JavaScript parseFloat on the plain decimal strings this repository
stores as amounts: exact decimal parse, then binary64 rounding; none
models NaN for unparseable input. -/
def parseFloatQ (s : String) : Option ℚ :=
  (parseDec s).map doubleRound

/-- Whether pat occurs as a prefix of l. -/
def listPrefix : List Char → List Char → Bool
  | [], _ => true
  | _ :: _, [] => false
  | p :: ps, c :: cs => p = c && listPrefix ps cs

/-- Whether pat occurs as a contiguous substring of l; models the
JavaScript String.includes used by extractCurrency. -/
def listInfix (pat : List Char) : List Char → Bool
  | [] => pat.isEmpty
  | c :: cs => listPrefix pat (c :: cs) || listInfix pat cs

/-- String containment, models JavaScript asset.includes(pat). -/
def strContains (s pat : String) : Bool :=
  listInfix pat.toList s.toList

/-- JavaScript `o || d` on a possibly-undefined string: the default is
taken when the value is undefined or the empty string (both falsy). -/
def strOr (o : Option String) (d : String) : String :=
  match o with
  | none => d
  | some s => if s = "" then d else s

/-!
## src/vc-issuer.ts — data model

The POFData, config and credential shapes of vc-issuer.ts. Dates the
source keeps as ISO strings are carried as their exact millisecond
values (Date.toISOString and parsing back are mutually inverse on
millisecond timestamps, so string equality is timestamp equality).
-/

/-- POFData (vc-issuer.ts): the proof-of-funds source facts. expiry is
in unix seconds, as in the source. -/
structure POFData where
  tokenId : String
  asset : String
  amount : String
  expiry : ℤ
  holderAddress : String
  kycCompliant : Bool
  sanctionsCleared : Bool
  custodian : Option String
  auditHash : Option String
deriving DecidableEq, Repr

/-- VCIssuerConfig (vc-issuer.ts). -/
structure VCIssuerConfig where
  issuerDID : String
  signingKey : String
  registryContract : String
  rpcUrl : String
deriving DecidableEq, Repr

/-- A VCIssuer instance: its config together with the two values the
constructor derives from the environment — the wallet address obtained
from the signing key and the chain id reported by the RPC provider
(both produced by external libraries, carried here as data). -/
structure VCIssuerState where
  config : VCIssuerConfig
  signerAddress : String
  chainId : ℕ
deriving DecidableEq, Repr

/-- vc.issuer is either a bare identifier string or an object with id
and display name, as in the @veramo/core type. -/
inductive IssuerRef where
  | str (s : String)
  | obj (id : String) (name : String)
deriving DecidableEq, Repr

/-- credentialSubject.hasAsset built by issueProofOfFunds. -/
structure HasAsset where
  type : String
  minimumAmount : String
  currency : String
deriving DecidableEq, Repr

/-- credentialSubject.proofOfFunds built by issueProofOfFunds. -/
structure ProofOfFundsInfo where
  tokenId : String
  verifiedAmount : String
  custodian : String
  auditTrail : Option String
deriving DecidableEq, Repr

/-- credentialSubject.compliance built by issueProofOfFunds; verifiedAt
is the issuance-time clock reading (now.toISOString in the source). -/
structure ComplianceInfo where
  kycApproved : Bool
  sanctionsCleared : Bool
  verifiedAt : ℤ
deriving DecidableEq, Repr

/-- The proof-of-funds credentialSubject payload. -/
structure CredentialSubject where
  id : String
  hasAsset : HasAsset
  proofOfFunds : ProofOfFundsInfo
  compliance : ComplianceInfo
deriving DecidableEq, Repr

/-- credentialStatus pointer (revocation lookup key). -/
structure CredentialStatus where
  id : String
  type : String
deriving DecidableEq, Repr

/-- The EIP-712 domain built by signVC / verifyVCSignature. -/
structure EIP712Domain where
  name : String
  version : String
  chainId : ℕ
  verifyingContract : String
deriving DecidableEq, Repr

/-- The typed-data value signed by signVC: the credential fields that
enter the signature. credentialSubject is JSON.stringify-ed in the
source; on this fixed shape stringify is injective and deterministic,
so the encoded string is carried as the structured value itself.
expirationDate none models the empty-string placeholder the source
substitutes for a missing expiry. -/
structure SignedVCValue where
  context : List String
  type : List String
  issuer : String
  issuanceDate : ℤ
  expirationDate : Option ℤ
  credentialSubject : CredentialSubject
deriving DecidableEq, Repr

/-- An ECDSA typed-data signature, idealised: it determines the domain,
the signed payload and the signer address. verifyTypedData recovery
returns the signer exactly on the signed (domain, payload); for any
other input the recovered address differs from the signer (with
overwhelming probability in the real scheme, definitely here). -/
structure Signature where
  domain : EIP712Domain
  payload : SignedVCValue
  signer : String
deriving DecidableEq, Repr

/-- vc.proof as attached by signVC. -/
structure ProofBlock where
  type : String
  created : ℤ
  verificationMethod : String
  proofPurpose : String
  proofValue : Signature
deriving DecidableEq, Repr

/-- The credential document of vc-issuer.ts, with the proof-of-funds
subject payload. context models the JSON-LD @context list. -/
structure VerifiableCredential where
  context : List String
  type : List String
  issuer : IssuerRef
  issuanceDate : ℤ
  expirationDate : Option ℤ
  credentialSubject : CredentialSubject
  credentialStatus : Option CredentialStatus
  proof : Option ProofBlock
deriving DecidableEq, Repr

/-!
## src/vc-issuer.ts — operations
-/

/-- extractCurrency (vc-issuer.ts): currency code from the asset
string by substring matching, defaulting to USD. -/
def extractCurrency (asset : String) : String :=
  if strContains asset "USDC" then "USDC"
  else if strContains asset "USDT" then "USDT"
  else if strContains asset "ETH" then "ETH"
  else if strContains asset "BTC" then "BTC"
  else "USD"

/-- The signing domain built identically in signVC and
verifyVCSignature. -/
def signDomain (st : VCIssuerState) : EIP712Domain :=
  { name := "UnyKorn Verifiable Credentials"
    version := "1"
    chainId := st.chainId
    verifyingContract := st.config.registryContract }

/-- The typed-data value built from a credential, identically in signVC
and verifyVCSignature. -/
def encodeVCValue (vc : VerifiableCredential) : SignedVCValue :=
  { context := vc.context
    type := vc.type
    issuer := match vc.issuer with
      | .str s => s
      | .obj id _ => id
    issuanceDate := vc.issuanceDate
    expirationDate := vc.expirationDate
    credentialSubject := vc.credentialSubject }

/-- signVC (vc-issuer.ts): attach an EIP-712 proof over the credential
fields; now is the clock reading for proof.created. -/
def signVC (st : VCIssuerState) (now : ℤ) (vc : VerifiableCredential) :
    VerifiableCredential :=
  { vc with proof := some (
    { type := "EthereumEip712Signature2021"
      created := now
      verificationMethod := st.config.issuerDID ++ "#key-1"
      proofPurpose := "assertionMethod"
      proofValue :=
        { domain := signDomain st
          payload := encodeVCValue vc
          signer := st.signerAddress } } : ProofBlock) }

/-- issueProofOfFunds (vc-issuer.ts): build the proof-of-funds
credential from the source facts and sign it; now is the issuance
clock reading (the source reads the clock once as new Date()). -/
def issueProofOfFunds (st : VCIssuerState) (now : ℤ) (holderDID : String)
    (pofData : POFData) : VerifiableCredential :=
  let expirationDate := pofData.expiry * 1000
  let credentialSubject : CredentialSubject :=
    { id := holderDID
      hasAsset :=
        { type := pofData.asset
          minimumAmount := pofData.amount
          currency := extractCurrency pofData.asset }
      proofOfFunds :=
        { tokenId := pofData.tokenId
          verifiedAmount := pofData.amount
          custodian := strOr pofData.custodian "self-custody"
          auditTrail := pofData.auditHash }
      compliance :=
        { kycApproved := pofData.kycCompliant
          sanctionsCleared := pofData.sanctionsCleared
          verifiedAt := now } }
  let vc : VerifiableCredential :=
    { context :=
        [ "https://www.w3.org/2018/credentials/v1"
        , "https://pof.unykorn.com/contexts/v1"
        , "https://schema.org" ]
      type := ["VerifiableCredential", "ProofOfFundsCredential"]
      issuer := .obj st.config.issuerDID "UnyKorn Proof of Funds Service"
      issuanceDate := now
      expirationDate := some expirationDate
      credentialSubject := credentialSubject
      credentialStatus := some
        { id := st.config.registryContract ++ "#" ++ pofData.tokenId
          type := "EthereumAttestationServiceStatus" }
      proof := none }
  signVC st now vc

/-- verifyVCSignature (vc-issuer.ts): false when proof is absent;
otherwise rebuild the domain and typed-data value, recover the signer
address and compare with the issuer wallet address. With the idealised
signature, recovery matches iff the stored signature was made over
exactly this domain and value by this wallet. -/
def verifyVCSignature (st : VCIssuerState) (vc : VerifiableCredential) :
    Bool :=
  match vc.proof with
  | none => false
  | some p =>
    p.proofValue.domain = signDomain st &&
    p.proofValue.payload = encodeVCValue vc &&
    p.proofValue.signer = st.signerAddress

/-- checkRevocationStatus (vc-issuer.ts). The registry argument is the
external revocation registry (flagged credential-status ids); the
source body never consults it: with no credentialStatus it returns
false, and with one it returns false as well — its body is a stub that
says the implementation would check the EAS registry and returns false
for now. This embedding is faithful to that body. -/
def checkRevocationStatus (_registry : String → Bool)
    (vc : VerifiableCredential) : Bool :=
  match vc.credentialStatus with
  | none => false
  | some _ => false

/-- Result shape of verifyCredential. -/
structure VerifyOutcome where
  verified : Bool
  error : Option String
  details : Option (IssuerRef × List String)
deriving DecidableEq, Repr

/-- verifyCredential (vc-issuer.ts): signature check first, then
expiry (strict past check on the parsed expirationDate), then
revocation; now is the verification-time clock reading in
milliseconds, registry the external revocation registry. -/
def verifyCredential (st : VCIssuerState) (registry : String → Bool)
    (now : ℤ) (vc : VerifiableCredential) : VerifyOutcome :=
  if ¬ verifyVCSignature st vc then
    { verified := false, error := some "Invalid signature", details := none }
  else if (match vc.expirationDate with
           | some e => decide (e < now)
           | none => false) then
    { verified := false, error := some "Credential expired", details := none }
  else if checkRevocationStatus registry vc then
    { verified := false, error := some "Credential revoked", details := none }
  else
    { verified := true, error := none
      details := some (vc.issuer, vc.type) }

/-!
## src/api/silobridge-api.ts — consent store
-/

/-- ConsentGrant (silobridge-api.ts). -/
structure ConsentGrant where
  userId : String
  grantedTo : String
  scopes : List String
  expiresAt : ℤ
deriving DecidableEq, Repr

/-- The consentStore map: per-user list of grants; a user absent from
the map reads as the empty list (consentStore.get(userId) with a []
fallback in the source). -/
def ConsentStore : Type := String → List ConsentGrant

/-- checkConsent (silobridge-api.ts): an unexpired grant to this
requester covering this scope exists; now is the Date.now() reading at
check time. -/
def checkConsent (store : ConsentStore) (now : ℤ)
    (userId requesterId scope : String) : Bool :=
  (store userId).any (fun consent =>
    consent.grantedTo == requesterId &&
    consent.scopes.contains scope &&
    decide (consent.expiresAt > now))

/-- The consent/grant handler body (silobridge-api.ts): build the new
grant with expiresAt = now + expiresIn (default 30 days, taken only
when expiresIn is undefined, as with a destructuring default), drop
every existing grant to the same requester that shares a scope with the
new one, and append the new grant. -/
def grantConsent (store : ConsentStore) (now : ℤ)
    (userId grantedTo : String) (scopes : List String)
    (expiresIn : Option ℤ) : ConsentStore :=
  let expiry := expiresIn.getD (30 * 24 * 60 * 60 * 1000)
  let consent : ConsentGrant :=
    { userId := userId, grantedTo := grantedTo, scopes := scopes
      expiresAt := now + expiry }
  let userConsents := store userId
  let filteredConsents := userConsents.filter (fun c =>
    !(c.grantedTo == grantedTo &&
      scopes.any (fun scope => c.scopes.contains scope)))
  fun u => if u = userId then filteredConsents ++ [consent] else store u

/-- The consent/revoke handler body (silobridge-api.ts): with a scopes
array present (any array is truthy, even the empty one), drop every
grant to the requester that shares a scope with the revoked set — the
whole grant, not the overlapping scopes; with scopes undefined, drop
every grant to the requester. -/
def revokeConsent (store : ConsentStore) (userId revokeFrom : String)
    (scopes : Option (List String)) : ConsentStore :=
  let userConsents := store userId
  let filteredConsents :=
    match scopes with
    | some scs => userConsents.filter (fun consent =>
        !(consent.grantedTo == revokeFrom &&
          scs.any (fun scope => consent.scopes.contains scope)))
    | none => userConsents.filter (fun consent =>
        consent.grantedTo != revokeFrom)
  fun u => if u = userId then filteredConsents else store u

/-!
## src/api/silobridge-api.ts — verification endpoints
-/

/-- The requirements object passed to verifyVC / verifyPOFToken:
requiredAsset and minAmount from the request body. minAmount is a
JavaScript number — the binary64 value the JSON parser produced. -/
structure TokenRequirements where
  requiredAsset : Option String
  minAmount : Option ℚ
deriving DecidableEq, Repr

/-- Metadata block of a token-rail verification result. -/
structure TokenMeta where
  amount : String
  currency : String
  tokenId : String
deriving DecidableEq, Repr

/-- Response shape of the silobridge verification endpoints; status is
the HTTP status (res.json defaults to 200, the missing-identifier
branch sends 400). Fields a given source branch leaves off its JSON
object are none / empty here. -/
structure SBVerifyResponse where
  status : ℕ
  valid : Bool
  reason : Option String
  claims : List String
  issuedBy : Option String
  expiresAt : Option ℤ
  verifiedAt : Option ℤ
  metadata : Option TokenMeta
deriving DecidableEq, Repr

/-- The amount comparison in verifyPOFToken:
parseFloat(amount) >= minAmount over binary64 values; an unparseable
amount gives NaN, and every comparison with NaN is false. -/
def floatGe (s : String) (m : ℚ) : Bool :=
  match parseFloatQ s with
  | none => false
  | some v => decide (v ≥ m)

/-- verifyPOFToken (silobridge-api.ts): look the token up in the store,
check the caller requirements (asset equality and parseFloat amount
comparison, each skipped when the requirement is falsy), and report
valid = requirements met AND kycCompliant AND sanctionsCleared. The
record expiry only flows into the expiresAt echo; it is not part of the
validity decision, and no stored validity flag is consulted. -/
def verifyPOFToken (store : String → Option POFData) (now : ℤ)
    (tokenId : String) (requirements : TokenRequirements) :
    SBVerifyResponse :=
  match store tokenId with
  | none =>
    { status := 200, valid := false, reason := some "PoF token not found"
      claims := [], issuedBy := none, expiresAt := none
      verifiedAt := none, metadata := none }
  | some pofData =>
    let meetsRequirements :=
      (!(strTruthy requirements.requiredAsset) ||
        pofData.asset == requirements.requiredAsset.getD "") &&
      (!(numTruthy requirements.minAmount) ||
        floatGe pofData.amount (requirements.minAmount.getD 0))
    { status := 200
      valid := meetsRequirements && pofData.kycCompliant &&
        pofData.sanctionsCleared
      reason := if meetsRequirements then none
        else some "Requirements not met"
      claims :=
        [ "Holds " ++ pofData.amount ++ " " ++ pofData.asset
        , "KYC Compliant", "Sanctions Cleared" ]
      issuedBy := some "UnyKorn PoF Service"
      expiresAt := some (pofData.expiry * 1000)
      verifiedAt := some now
      metadata := some
        { amount := pofData.amount, currency := pofData.asset
          tokenId := tokenId } }

/-- extractCredentialClaims (silobridge-api.ts): human-readable claim
strings keyed off the credential type tags. -/
def extractCredentialClaims (vc : VerifiableCredential) : List String :=
  (if vc.type.contains "ProofOfFundsCredential" then
    [ "Verified funds: " ++ vc.credentialSubject.hasAsset.minimumAmount
      ++ " " ++ vc.credentialSubject.hasAsset.currency ]
  else []) ++
  (if vc.type.contains "KYCCredential" then ["KYC Approved"] else []) ++
  (if vc.type.contains "DeviceAttestationCredential" then
    ["Device Verified"] else [])

/-- verifyVC (silobridge-api.ts): fetch the credential document from
its URI, run vcIssuer.verifyCredential, and on success run the
requirement check. fetchCred abstracts fetchCredentialFromURI, which
the source leaves as a mock of the external credential repository
(error models the thrown unsupported-scheme case, caught by the
enclosing try into a valid:false result). The source
checkCredentialRequirements is likewise a mock that ignores the
requirements and always returns valid with empty metadata; this
embedding keeps that body, so success carries no metadata. -/
def verifyVC (fetchCred : String → Except String VerifiableCredential)
    (st : VCIssuerState) (registry : String → Bool) (now : ℤ)
    (vcURI : String) (_requirements : TokenRequirements) :
    SBVerifyResponse :=
  match fetchCred vcURI with
  | .error e =>
    { status := 200, valid := false, reason := some e, claims := []
      issuedBy := none, expiresAt := none, verifiedAt := none
      metadata := none }
  | .ok vc =>
    let verification := verifyCredential st registry now vc
    if ¬ verification.verified then
      { status := 200, valid := false
        reason := some (verification.error.getD "Invalid credential")
        claims := [], issuedBy := none, expiresAt := none
        verifiedAt := none, metadata := none }
    else
      { status := 200, valid := true, reason := none
        claims := extractCredentialClaims vc
        issuedBy := some (match vc.issuer with
          | .str s => s
          | .obj _ name => name)
        expiresAt := vc.expirationDate
        verifiedAt := some now
        metadata := none }

/-- A POST /api/verify request body (silobridge-api.ts). -/
structure VerificationRequest where
  vcURI : Option String
  tokenId : Option String
  requiredAsset : Option String
  minAmount : Option ℚ
deriving DecidableEq, Repr

/-- The POST /api/verify handler body (silobridge-api.ts): a truthy
vcURI selects the credential rail, otherwise a truthy tokenId selects
the token rail, otherwise 400. -/
def apiVerify (fetchCred : String → Except String VerifiableCredential)
    (st : VCIssuerState) (registry : String → Bool)
    (tokenStore : String → Option POFData) (now : ℤ)
    (r : VerificationRequest) : SBVerifyResponse :=
  let requirements : TokenRequirements :=
    { requiredAsset := r.requiredAsset, minAmount := r.minAmount }
  if strTruthy r.vcURI then
    verifyVC fetchCred st registry now (r.vcURI.getD "") requirements
  else if strTruthy r.tokenId then
    verifyPOFToken tokenStore now (r.tokenId.getD "") requirements
  else
    { status := 400, valid := false
      reason := some "Either vcURI or tokenId must be provided"
      claims := [], issuedBy := none, expiresAt := none
      verifiedAt := none, metadata := none }

/-!
## src/demo/verification-server.js — data model
-/

/-- An entry of the mockNFTRegistry (token-rail record); expiry is in
unix seconds. -/
structure NFTRecord where
  tokenId : String
  amount : String
  asset : String
  holderAddress : String
  expiry : ℤ
  kycCompliant : Bool
  sanctionsCleared : Bool
  custodian : String
  auditHash : String
  valid : Bool
deriving DecidableEq, Repr

/-- Metadata block of a mockVCRegistry entry. -/
structure VCMeta where
  amount : String
  currency : String
  tokenId : String
  holderDID : String
deriving DecidableEq, Repr

/-- An entry of the mockVCRegistry (credential-rail record). -/
structure VCRecord where
  vcURI : String
  valid : Bool
  claims : List String
  issuedBy : String
  expiresAt : ℤ
  verifiedAt : ℤ
  metadata : VCMeta
deriving DecidableEq, Repr

/-- The reason strings of the demo verify endpoints, carried
structurally: each constructor stands for one of the (injective)
message templates of the source, with the interpolated values as
arguments. -/
inductive DemoReason where
  | noMethod
  | vcSuccess
  | invalidVCSignature
  | vcNotFound
  | nftSuccess
  | tokenExpired
  | invalidToken
  | nftNotFound
  | assetMismatch (required found : String)
  | insufficientAmount (required : ℚ) (found : String)
deriving DecidableEq, Repr

/-- Metadata of a single-verify demo response: empty object, the VC
registry metadata, or the NFT branch object. -/
inductive DemoMeta where
  | empty
  | vc (m : VCMeta)
  | nft (tokenId amount currency holderAddress custodian : String)
      (kycCompliant sanctionsCleared : Bool)
deriving DecidableEq, Repr

/-- Response of the demo POST /api/verify endpoint. -/
structure DemoVerifyResponse where
  valid : Bool
  reason : DemoReason
  claims : List String
  issuedBy : Option String
  expiresAt : Option ℤ
  verifiedAt : ℤ
  metadata : DemoMeta
deriving DecidableEq, Repr

/-- The demo expiry test nftData.expiry > Date.now() / 1000: the
division is binary64, so its result is the rounded quotient (expiry
values stay below 2^53 and convert exactly). -/
def demoNotExpired (expiry nowMs : ℤ) : Bool :=
  decide ((expiry : ℚ) > doubleRound ((nowMs : ℚ) / 1000))

/-- The amount comparison of the demo verify branches:
parseFloat(amount) < minAmount over binary64 values (false when the
amount is NaN). -/
def floatLt (s : String) (m : ℚ) : Bool :=
  match parseFloatQ s with
  | none => false
  | some v => decide (v < m)

/-!
## src/demo/verification-server.js — handlers
-/

/-- The demo POST /api/verify handler body: starts from the
no-method default result; a truthy vcURI selects the credential-rail
branch, otherwise a truthy tokenId selects the token-rail branch.
Each branch builds its result and then applies the two requirement
overrides of the source (asset mismatch, then insufficient amount);
the sequential in-place overrides are folded into the single record
literal here: valid collects the conjunction of the base validity with
the negated failure conditions, and reason keeps the last override
that fired (the amount check runs last in the source, so it wins).
minAmount is the JavaScript number from the body (parseFloat on a
number is the identity). -/
def demoVerify (vcReg : String → Option VCRecord)
    (nftReg : String → Option NFTRecord) (now : ℤ)
    (vcURI tokenId requiredAsset : Option String)
    (minAmount : Option ℚ) : DemoVerifyResponse :=
  let base : DemoVerifyResponse :=
    { valid := false, reason := .noMethod, claims := []
      issuedBy := none, expiresAt := none, verifiedAt := now
      metadata := .empty }
  if strTruthy vcURI then
    match vcReg (vcURI.getD "") with
    | some vcData =>
      let assetFail := strTruthy requiredAsset &&
        vcData.metadata.currency != requiredAsset.getD ""
      let amountFail := numTruthy minAmount &&
        floatLt vcData.metadata.amount (minAmount.getD 0)
      { valid := vcData.valid && !assetFail && !amountFail
        reason :=
          if amountFail then
            .insufficientAmount (minAmount.getD 0) vcData.metadata.amount
          else if assetFail then
            .assetMismatch (requiredAsset.getD "") vcData.metadata.currency
          else if vcData.valid then .vcSuccess else .invalidVCSignature
        claims := vcData.claims
        issuedBy := some vcData.issuedBy
        expiresAt := some vcData.expiresAt
        verifiedAt := vcData.verifiedAt
        metadata := .vc vcData.metadata }
    | none => { base with reason := .vcNotFound }
  else if strTruthy tokenId then
    match nftReg (tokenId.getD "") with
    | some nftData =>
      let notExpired := demoNotExpired nftData.expiry now
      let assetFail := strTruthy requiredAsset &&
        nftData.asset != requiredAsset.getD ""
      let amountFail := numTruthy minAmount &&
        floatLt nftData.amount (minAmount.getD 0)
      { valid := nftData.valid && notExpired && !assetFail && !amountFail
        reason :=
          if amountFail then
            .insufficientAmount (minAmount.getD 0) nftData.amount
          else if assetFail then
            .assetMismatch (requiredAsset.getD "") nftData.asset
          else if nftData.valid then
            (if notExpired then .nftSuccess else .tokenExpired)
          else .invalidToken
        claims := ["ProofOfFunds"]
        issuedBy := some "UPoF V2 System"
        expiresAt := some (nftData.expiry * 1000)
        verifiedAt := now
        metadata := .nft nftData.tokenId nftData.amount nftData.asset
          nftData.holderAddress nftData.custodian nftData.kycCompliant
          nftData.sanctionsCleared }
    | none => { base with reason := .nftNotFound }
  else base

/-- A rail sub-result of the dual endpoint, with the metadata type of
its rail (the VC rail forwards the registry metadata including
holderDID; the NFT rail builds a three-field object). -/
structure RailResult (μ : Type) where
  valid : Bool
  method : String
  claims : Option (List String)
  metadata : Option μ
  reason : Option String
deriving DecidableEq, Repr

/-- The crossValidation block of the dual endpoint. -/
structure CrossValidation where
  bothValid : Bool
  amountMatch : Bool
  currencyMatch : Bool
  tokenIdMatch : Bool
deriving DecidableEq, Repr

/-- The reason strings of the dual endpoint, carried structurally. -/
inductive DualReason where
  | success
  | claimsMismatch
  | railFailed
deriving DecidableEq, Repr

/-- Response of the demo POST /api/verify/dual endpoint. -/
structure DualResponse where
  valid : Bool
  crossValidation : CrossValidation
  vc : RailResult VCMeta
  nft : RailResult TokenMeta
  verifiedAt : ℤ
  reason : DualReason
deriving DecidableEq, Repr

/-- The demo POST /api/verify/dual handler body: 400 when either
identifier is falsy (the error value carries the 400 message);
otherwise verify each rail against its registry, cross-validate the
metadata fields with the undefined-tolerant optional-chaining equality
(absent === absent is true), and report
valid = bothValid AND amountMatch AND currencyMatch. The destructured
requiredAsset and minAmount of the source are never used by this
handler. -/
def demoVerifyDual (vcReg : String → Option VCRecord)
    (nftReg : String → Option NFTRecord) (now : ℤ)
    (vcURI tokenId : Option String) (_requiredAsset : Option String)
    (_minAmount : Option ℚ) : Except String DualResponse :=
  if !(strTruthy vcURI) || !(strTruthy tokenId) then
    .error "Both vcURI and tokenId required for dual verification"
  else
    let vcResult : RailResult VCMeta :=
      match vcReg (vcURI.getD "") with
      | some vcData =>
        { valid := vcData.valid, method := "VC"
          claims := some vcData.claims
          metadata := some vcData.metadata, reason := none }
      | none =>
        { valid := false, method := "VC", claims := none
          metadata := none, reason := some "VC not found" }
    let nftResult : RailResult TokenMeta :=
      match nftReg (tokenId.getD "") with
      | some nftData =>
        { valid := nftData.valid && demoNotExpired nftData.expiry now
          method := "NFT", claims := some ["ProofOfFunds"]
          metadata := some
            { amount := nftData.amount, currency := nftData.asset
              tokenId := nftData.tokenId }
          reason := none }
      | none =>
        { valid := false, method := "NFT", claims := none
          metadata := none, reason := some "NFT not found" }
    let crossValidation : CrossValidation :=
      { bothValid := vcResult.valid && nftResult.valid
        amountMatch := (vcResult.metadata.map VCMeta.amount) ==
          (nftResult.metadata.map TokenMeta.amount)
        currencyMatch := (vcResult.metadata.map VCMeta.currency) ==
          (nftResult.metadata.map TokenMeta.currency)
        tokenIdMatch := (vcResult.metadata.map VCMeta.tokenId) ==
          (nftResult.metadata.map TokenMeta.tokenId) }
    .ok
      { valid := crossValidation.bothValid &&
          crossValidation.amountMatch && crossValidation.currencyMatch
        crossValidation := crossValidation
        vc := vcResult
        nft := nftResult
        verifiedAt := now
        reason := if crossValidation.bothValid then
            (if crossValidation.amountMatch &&
                crossValidation.currencyMatch then
              .success
            else .claimsMismatch)
          else .railFailed }

/-!
## src/demo/verification-server.js — mock registry data

The concrete registry contents of the source, parameterized by the
server start clock reading (the source computes both expiries from
Date.now() at module load: the NFT expiry as
Math.floor(Date.now() / 1000) + 30 days in seconds, the VC expiry as
Date.now() + 30 days in milliseconds).
-/

/-- The holder DID key of the single mockVCRegistry entry. -/
def demoVCURI : String :=
  "did:ethr:0x742d35Cc6634C0532925a3b8D93C7E8F476C4578/vc/pof-42"

/-- mockNFTRegistry: one token record under id 42; startSec is the
floor-divided module-load time in seconds. -/
def mockNFTRegistry (startSec : ℤ) : String → Option NFTRecord :=
  fun id =>
    if id = "42" then some
      { tokenId := "42"
        amount := "50000.00"
        asset := "USDC"
        holderAddress := "0x742d35Cc6634C0532925a3b8D93C7E8F476C4578"
        expiry := startSec + 30 * 24 * 60 * 60
        kycCompliant := true
        sanctionsCleared := true
        custodian := "Coinbase Custody"
        auditHash :=
          "0x8f3b4e9a7c1d6f2e5b8a9c4d7e1f6a2b5c8e1a4b7c2d5e8f1a4b7c2d5e8f1a4b"
        valid := true }
    else none

/-- mockVCRegistry: one credential record under the demo DID URI;
startMs is the module-load time in milliseconds. -/
def mockVCRegistry (startMs : ℤ) : String → Option VCRecord :=
  fun uri =>
    if uri = demoVCURI then some
      { vcURI := demoVCURI
        valid := true
        claims := ["ProofOfFunds", "KYCCompliant", "SanctionsCleared"]
        issuedBy := "UnyKorn Proof of Funds Service"
        expiresAt := startMs + 30 * 24 * 60 * 60 * 1000
        verifiedAt := startMs
        metadata :=
          { amount := "50000.00"
            currency := "USDC"
            tokenId := "42"
            holderDID := "did:ethr:0x742d35Cc6634C0532925a3b8D93C7E8F476C4578" } }
    else none

/-!
## Concrete fixtures

Concrete instances used to evaluate the handlers at specific inputs:
an issuer instance, a proof-of-funds fact record, token stores and
registries. They mirror the shapes the source feeds its own handlers.
-/

/-- An empty consent store. -/
def emptyConsent : ConsentStore := fun _ => []

/-- A concrete issuer configuration. -/
def testConfig : VCIssuerConfig :=
  { issuerDID := "did:ethr:0x123"
    signingKey := "testkey"
    registryContract := "0xREG"
    rpcUrl := "http://localhost:8545" }

/-- A concrete issuer instance. -/
def testIssuer : VCIssuerState :=
  { config := testConfig, signerAddress := "0xSIGNER", chainId := 1 }

/-- A concrete proof-of-funds fact record (expiry in unix seconds). -/
def testPOF : POFData :=
  { tokenId := "42", asset := "USDC", amount := "50000.00"
    expiry := 2000000, holderAddress := "0xH"
    kycCompliant := true, sanctionsCleared := true
    custodian := none, auditHash := some "0xAUDIT" }

/-- A revocation registry that flags the status id of credentials the
test issuer mints for token 42. -/
def testRevReg : String → Bool := fun id => id = "0xREG#42"

/-- Credential issued at clock 0 for the test holder. -/
def testCred : VerifiableCredential :=
  issueProofOfFunds testIssuer 0 "did:ethr:0xH" testPOF

/-- Credential whose expiry (second 1, millisecond 1000) is long past
at the verification times used below. -/
def expiredCred : VerifiableCredential :=
  issueProofOfFunds testIssuer 0 "did:ethr:0xH" { testPOF with expiry := 1 }

/-- The expired credential with its proof stripped: its signature does
not verify. -/
def expiredCredBadSig : VerifiableCredential :=
  { expiredCred with proof := none }

/-- A token record whose expiry (second 10) is long past. -/
def expiredToken : POFData :=
  { tokenId := "t1", asset := "USDC", amount := "100.00", expiry := 10
    holderAddress := "0xH", kycCompliant := true
    sanctionsCleared := true, custodian := none, auditHash := none }

/-- A token store holding only the expired token. -/
def expiredTokenStore : String → Option POFData :=
  fun id => if id = "t1" then some expiredToken else none

/-- A token record whose amount is 2^53, the largest power of two at
which consecutive integers are still exactly representable in
binary64. -/
def hugeToken : POFData :=
  { tokenId := "t2", asset := "USDC", amount := "9007199254740992"
    expiry := 99999999999, holderAddress := "0xH"
    kycCompliant := true, sanctionsCleared := true
    custodian := none, auditHash := none }

/-- A token store holding only the 2^53 token. -/
def hugeTokenStore : String → Option POFData :=
  fun id => if id = "t2" then some hugeToken else none

/-- The no-requirements object. -/
def noRequirements : TokenRequirements :=
  { requiredAsset := none, minAmount := none }

/-- The demo NFT registry with the amount of every record replaced by
a different string — token 42 mutated away from the credential rail. -/
def mutatedNFTRegistry (startSec : ℤ) : String → Option NFTRecord :=
  fun id => (mockNFTRegistry startSec id).map
    (fun r => { r with amount := "50001.00" })

/-- A demo-rail token record with both compliance flags false but the
registry valid flag set and a far-future expiry. -/
def nonCompliantNFT : NFTRecord :=
  { tokenId := "n1", amount := "100.00", asset := "USDC"
    holderAddress := "0xH", expiry := 99999999999
    kycCompliant := false, sanctionsCleared := false
    custodian := "Cust", auditHash := "0xA", valid := true }

/-- A demo NFT registry holding only the non-compliant record. -/
def nonCompliantNFTStore : String → Option NFTRecord :=
  fun id => if id = "n1" then some nonCompliantNFT else none

/-!
## Theorems
-/

/-- C8: whenever either identifier of a dual-rail request is absent
(or empty, which JavaScript treats the same), the demo dual endpoint
answers 400 with the incomplete-dual-rail message — for every registry
state, so neither rail is verified and there is no degradation to
single-rail verification. -/
theorem C8_dual_requires_both_rails (vcReg : String → Option VCRecord)
    (nftReg : String → Option NFTRecord) (now : ℤ)
    (vcURI tokenId ra : Option String) (ma : Option ℚ)
    (h : strTruthy vcURI = false ∨ strTruthy tokenId = false) :
    demoVerifyDual vcReg nftReg now vcURI tokenId ra ma =
      Except.error "Both vcURI and tokenId required for dual verification" := by
  unfold demoVerifyDual
  rcases h with h | h <;> simp [h]

/-- Witness for C8 at a concrete input: the token rail alone, with the
credential identifier absent, is refused. -/
theorem C8_dual_requires_both_rails_witness :
    demoVerifyDual (mockVCRegistry 0) (mockNFTRegistry 0) 0 none
      (some "42") none none =
      Except.error "Both vcURI and tokenId required for dual verification" :=
  C8_dual_requires_both_rails _ _ _ _ _ _ _ (Or.inl rfl)

/-- C10: a single-rail request that carries a (nonempty) vcURI is
served entirely by the credential rail: the response equals the
verifyVC result for that URI — the same for every tokenId — and the
token store is never consulted (the response is identical under any
two token stores). -/
theorem C10_single_verify_vc_precedence
    (fetchCred : String → Except String VerifiableCredential)
    (st : VCIssuerState) (registry : String → Bool)
    (ts₁ ts₂ : String → Option POFData) (now : ℤ) (u : String)
    (t ra : Option String) (ma : Option ℚ) (hu : u ≠ "") :
    apiVerify fetchCred st registry ts₁ now
        { vcURI := some u, tokenId := t, requiredAsset := ra
          minAmount := ma } =
      verifyVC fetchCred st registry now u
        { requiredAsset := ra, minAmount := ma } ∧
    apiVerify fetchCred st registry ts₁ now
        { vcURI := some u, tokenId := t, requiredAsset := ra
          minAmount := ma } =
      apiVerify fetchCred st registry ts₂ now
        { vcURI := some u, tokenId := t, requiredAsset := ra
          minAmount := ma } := by
  unfold apiVerify
  simp [strTruthy, hu]

/-- Witness for C10 at a concrete input: request with both identifiers
present; the result is the credential-rail verification and does not
depend on the token store. -/
theorem C10_single_verify_vc_precedence_witness :
    apiVerify (fun _ => Except.error "Unsupported credential URI scheme")
        testIssuer testRevReg expiredTokenStore 500
        { vcURI := some "ipfs://x", tokenId := some "t1"
          requiredAsset := none, minAmount := none } =
      verifyVC (fun _ => Except.error "Unsupported credential URI scheme")
        testIssuer testRevReg 500 "ipfs://x"
        { requiredAsset := none, minAmount := none } ∧
    apiVerify (fun _ => Except.error "Unsupported credential URI scheme")
        testIssuer testRevReg expiredTokenStore 500
        { vcURI := some "ipfs://x", tokenId := some "t1"
          requiredAsset := none, minAmount := none } =
      apiVerify (fun _ => Except.error "Unsupported credential URI scheme")
        testIssuer testRevReg hugeTokenStore 500
        { vcURI := some "ipfs://x", tokenId := some "t1"
          requiredAsset := none, minAmount := none } :=
  C10_single_verify_vc_precedence _ _ _ _ _ _ _ _ _ _ (by decide)

/-- C9: after grant(subject, requester, scopes, ttl) against any prior
store state, consent for each granted scope holds exactly while the
check time is before the expiry now + ttl (30 days when ttl is
omitted): true strictly before it, false from it on, with no cleanup
pass — expiry is decided lazily inside the consent check. -/
theorem C9_grant_consent_window (store : ConsentStore) (t0 t : ℤ)
    (u r s : String) (scopes : List String) (ei : Option ℤ)
    (hs : s ∈ scopes) :
    checkConsent (grantConsent store t0 u r scopes ei) t u r s =
      decide (t < t0 + ei.getD (30 * 24 * 60 * 60 * 1000)) := by
  unfold checkConsent grantConsent
  rw [if_pos rfl, List.any_append]
  have hsurv : ((store u).filter (fun c =>
      !(c.grantedTo == r &&
        scopes.any (fun scope => c.scopes.contains scope)))).any
      (fun consent => consent.grantedTo == r &&
        consent.scopes.contains s &&
        decide (consent.expiresAt > t)) = false := by
    rw [List.any_eq_false]
    intro c hc hp
    rw [List.mem_filter] at hc
    obtain ⟨-, hkeep⟩ := hc
    simp only [Bool.and_eq_true, beq_iff_eq, decide_eq_true_eq] at hp
    obtain ⟨⟨hgr, hcont⟩, -⟩ := hp
    have hB : (scopes.any fun scope => c.scopes.contains scope) = true := by
      rw [List.any_eq_true]
      exact ⟨s, hs, hcont⟩
    simp [hgr, hB] at hkeep
    exact hkeep s hs (by simpa using hcont)
  rw [hsurv]
  simp [List.elem_eq_true_of_mem hs, hs]

/-- Witness for C9 at a concrete input: a one-hour grant of
kyc_status checked at grant time. -/
theorem C9_grant_consent_window_witness :
    checkConsent (grantConsent emptyConsent 100 "u" "r" ["kyc_status"]
      (some 3600000)) 100 "u" "r" "kyc_status" =
      decide ((100 : ℤ) < 100 +
        (Option.getD (some 3600000) (30 * 24 * 60 * 60 * 1000) : ℤ)) :=
  C9_grant_consent_window emptyConsent 100 100 "u" "r" "kyc_status"
    ["kyc_status"] (some 3600000) (by simp)

/-- C1: for every dual-rail verification that passes the
completeness guard, the overall valid flag is exactly
bothValid AND amountMatch AND currencyMatch, where bothValid is the
conjunction of the two rail validities and the match flags compare the
rails metadata amounts and currencies; in particular a credential and
a token asserting the same amount and currency with both rails valid
yield overall valid true, while a token whose amount differs from the
credential yields amountMatch false and overall valid false. -/
theorem C1_dual_cross_validation :
    (∀ (vcReg : String → Option VCRecord)
       (nftReg : String → Option NFTRecord) (now : ℤ)
       (vcURI tokenId ra : Option String) (ma : Option ℚ)
       (r : DualResponse),
       demoVerifyDual vcReg nftReg now vcURI tokenId ra ma =
         Except.ok r →
       r.valid = (r.crossValidation.bothValid &&
         r.crossValidation.amountMatch &&
         r.crossValidation.currencyMatch) ∧
       r.crossValidation.bothValid = (r.vc.valid && r.nft.valid) ∧
       r.crossValidation.amountMatch = ((r.vc.metadata.map VCMeta.amount) ==
         (r.nft.metadata.map TokenMeta.amount)) ∧
       r.crossValidation.currencyMatch =
         ((r.vc.metadata.map VCMeta.currency) ==
           (r.nft.metadata.map TokenMeta.currency))) ∧
    (∀ (vcReg : String → Option VCRecord)
       (nftReg : String → Option NFTRecord) (now : ℤ) (u t : String)
       (ra : Option String) (ma : Option ℚ) (vcData : VCRecord)
       (nftData : NFTRecord),
       u ≠ "" → t ≠ "" → vcReg u = some vcData → nftReg t = some nftData →
       vcData.valid = true → nftData.valid = true →
       demoNotExpired nftData.expiry now = true →
       (vcData.metadata.amount = nftData.amount →
        vcData.metadata.currency = nftData.asset →
        (demoVerifyDual vcReg nftReg now (some u) (some t) ra ma).map
          DualResponse.valid = Except.ok true) ∧
       (vcData.metadata.amount ≠ nftData.amount →
        (demoVerifyDual vcReg nftReg now (some u) (some t) ra ma).map
          (fun r => (r.crossValidation.amountMatch, r.valid)) =
          Except.ok (false, false))) := by
  constructor
  · intro vcReg nftReg now vcURI tokenId ra ma r h
    unfold demoVerifyDual at h
    split at h
    · exact absurd h (by simp)
    · rw [Except.ok.injEq] at h
      subst h
      exact ⟨rfl, rfl, rfl, rfl⟩
  · intro vcReg nftReg now u t ra ma vcData nftData hu ht hvc hnft
      hvcv hnftv hexp
    constructor
    · intro ham hcur
      simp [demoVerifyDual, strTruthy, hu, ht, hvc, hnft, hvcv, hnftv,
        hexp, ham, hcur, Except.map]
    · intro ham
      simp [demoVerifyDual, strTruthy, hu, ht, hvc, hnft, hvcv, hnftv,
        hexp, ham, Except.map, beq_eq_false_iff_ne]

/-- Witness for C1 at the concrete demo registries: the stock
registries agree on token 42 and dual verification is valid; with the
token amount mutated, amountMatch and overall valid are false. -/
theorem C1_dual_cross_validation_witness :
    ((demoVerifyDual (mockVCRegistry 1000000) (mockNFTRegistry 1000)
        1000000 (some demoVCURI) (some "42") none none).map
        DualResponse.valid = Except.ok true) ∧
    ((demoVerifyDual (mockVCRegistry 1000000) (mutatedNFTRegistry 1000)
        1000000 (some demoVCURI) (some "42") none none).map
        (fun r => (r.crossValidation.amountMatch, r.valid)) =
        Except.ok (false, false)) :=
  ⟨(C1_dual_cross_validation.2 (mockVCRegistry 1000000)
      (mockNFTRegistry 1000) 1000000 demoVCURI "42" none none _ _
      (by decide) (by decide) rfl rfl rfl rfl (by norm_num [demoNotExpired,
        doubleRound, doubleRoundPos, floorLog2, pow2, rne, Nat.log2])).1
      rfl rfl,
   (C1_dual_cross_validation.2 (mockVCRegistry 1000000)
      (mutatedNFTRegistry 1000) 1000000 demoVCURI "42" none none _ _
      (by decide) (by decide) rfl rfl rfl rfl (by norm_num [demoNotExpired,
        doubleRound, doubleRoundPos, floorLog2, pow2, rne, Nat.log2])).2
      (by decide)⟩

/-- C2 counterexample: a token whose expiry (second 10, millisecond
10000) is far in the past at verification time 1000000000 is still
reported valid by verifyPOFToken — the claim that token-rail validity
requires expiry strictly beyond the verification time is false of this
code. -/
theorem C2_counterexample :
    expiredTokenStore "t1" = some expiredToken ∧
    expiredToken.expiry * 1000 < 1000000000 ∧
    (verifyPOFToken expiredTokenStore 1000000000 "t1"
      noRequirements).valid = true := by
  decide

/-- C2 amended: what token-rail validity actually is. In
verifyPOFToken it is the requirement check AND both compliance flags —
no registry valid flag and no expiry enter the decision; in the demo
server token branch it is the registry valid flag AND the expiry check
AND the requirement checks — the compliance flags never enter the
decision. -/
theorem C2_amended_token_validity :
    (∀ (store : String → Option POFData) (now : ℤ) (tokenId : String)
       (requirements : TokenRequirements) (pofData : POFData),
       store tokenId = some pofData →
       (verifyPOFToken store now tokenId requirements).valid =
         ((!(strTruthy requirements.requiredAsset) ||
             pofData.asset == requirements.requiredAsset.getD "") &&
          (!(numTruthy requirements.minAmount) ||
             floatGe pofData.amount (requirements.minAmount.getD 0)) &&
          pofData.kycCompliant && pofData.sanctionsCleared)) ∧
    (∀ (vcReg : String → Option VCRecord)
       (nftReg : String → Option NFTRecord) (now : ℤ) (t : String)
       (ra : Option String) (ma : Option ℚ) (nftData : NFTRecord),
       t ≠ "" → nftReg t = some nftData →
       (demoVerify vcReg nftReg now none (some t) ra ma).valid =
         (nftData.valid && demoNotExpired nftData.expiry now &&
          !(strTruthy ra && nftData.asset != ra.getD "") &&
          !(numTruthy ma && floatLt nftData.amount (ma.getD 0)))) := by
  constructor
  · intro store now tokenId requirements pofData hstore
    simp [verifyPOFToken, hstore, Bool.and_assoc]
  · intro vcReg nftReg now t ra ma nftData ht hnft
    have h0 : strTruthy none = false := rfl
    have h1 : strTruthy (some t) = true := by simp [strTruthy, ht]
    cases hA : (strTruthy ra && nftData.asset != ra.getD "") <;>
      cases hM : (numTruthy ma && floatLt nftData.amount (ma.getD 0)) <;>
        simp [demoVerify, h0, h1, hnft, hA, hM]

/-- Witness for the amended C2 at concrete inputs: the expired token
on the verifyPOFToken side, and a record with both compliance flags
false on the demo side. -/
theorem C2_amended_token_validity_witness :
    ((verifyPOFToken expiredTokenStore 1000000000 "t1"
        noRequirements).valid =
      ((!(strTruthy noRequirements.requiredAsset) ||
          expiredToken.asset == noRequirements.requiredAsset.getD "") &&
       (!(numTruthy noRequirements.minAmount) ||
          floatGe expiredToken.amount (noRequirements.minAmount.getD 0)) &&
       expiredToken.kycCompliant && expiredToken.sanctionsCleared)) ∧
    ((demoVerify (mockVCRegistry 0) nonCompliantNFTStore 0 none
        (some "n1") none none).valid =
      (nonCompliantNFT.valid &&
       demoNotExpired nonCompliantNFT.expiry 0 &&
       !(strTruthy none && nonCompliantNFT.asset != Option.getD none "") &&
       !(numTruthy none &&
          floatLt nonCompliantNFT.amount (Option.getD none 0)))) :=
  ⟨C2_amended_token_validity.1 expiredTokenStore 1000000000 "t1"
      noRequirements expiredToken rfl,
   C2_amended_token_validity.2 (mockVCRegistry 0) nonCompliantNFTStore 0
      "n1" none none nonCompliantNFT (by decide) rfl⟩

/-- C3: evidence that revocation is never detected. The credential for
token 42 carries a status pointer, the revocation registry flags
exactly that status id, the signature is valid and the expiry is in
the future — yet verifyCredential reports verified, because the source
body of checkRevocationStatus never consults the registry and returns
not-revoked unconditionally. -/
theorem C3_revoked_credential_still_verifies :
    testCred.credentialStatus = some
      { id := "0xREG#42", type := "EthereumAttestationServiceStatus" } ∧
    testRevReg "0xREG#42" = true ∧
    (verifyCredential testIssuer testRevReg 500 testCred).verified = true ∧
    (verifyCredential testIssuer testRevReg 500 testCred).error ≠
      some "Credential revoked" := by
  decide

/-- C4 counterexample: a credential whose expirationDate (millisecond
1000) is long past at verification time 999999999 but whose signature
is invalid is reported with reason Invalid signature, not Credential
expired — the claim that the reason is Expired regardless of signature
validity is false of this code. -/
theorem C4_counterexample :
    expiredCredBadSig.expirationDate = some 1000 ∧
    ((1000 : ℤ) < 999999999) ∧
    (verifyCredential testIssuer testRevReg 999999999
      expiredCredBadSig).verified = false ∧
    (verifyCredential testIssuer testRevReg 999999999
      expiredCredBadSig).error = some "Invalid signature" := by
  decide

/-- C4 amended: for a credential with a past expirationDate,
verification always fails; the reason is Credential expired when the
signature verifies and Invalid signature when it does not, because the
signature check precedes the expiry check. -/
theorem C4_amended_signature_precedes_expiry (st : VCIssuerState)
    (registry : String → Bool) (now : ℤ) (vc : VerifiableCredential)
    (e : ℤ) (hexp : vc.expirationDate = some e) (hlt : e < now) :
    (verifyCredential st registry now vc).verified = false ∧
    (verifyVCSignature st vc = true →
      (verifyCredential st registry now vc).error =
        some "Credential expired") ∧
    (verifyVCSignature st vc = false →
      (verifyCredential st registry now vc).error =
        some "Invalid signature") := by
  cases h : verifyVCSignature st vc <;>
    simp [verifyCredential, h, hexp, hlt]

/-- Witness for the amended C4 at a concrete input: the expired
credential with a valid signature fails with Credential expired. -/
theorem C4_amended_signature_precedes_expiry_witness :
    (verifyCredential testIssuer testRevReg 999999999
      expiredCred).verified = false ∧
    (verifyCredential testIssuer testRevReg 999999999
      expiredCred).error = some "Credential expired" :=
  ⟨(C4_amended_signature_precedes_expiry testIssuer testRevReg
      999999999 expiredCred 1000 (by decide) (by decide)).1,
   (C4_amended_signature_precedes_expiry testIssuer testRevReg
      999999999 expiredCred 1000 (by decide) (by decide)).2.1 (by decide)⟩

/-- C5 counterexample: grant scopes a and b, then revoke only a —
consent for b is also gone, because the revoke handler removes every
overlapping grant in its entirety; the claim that a grant retains its
non-revoked scopes is false of this code. -/
theorem C5_counterexample :
    checkConsent (grantConsent emptyConsent 0 "u" "r" ["a", "b"] none)
      5 "u" "r" "b" = true ∧
    checkConsent (revokeConsent
      (grantConsent emptyConsent 0 "u" "r" ["a", "b"] none)
      "u" "r" (some ["a"])) 5 "u" "r" "b" = false := by
  decide

/-- C5 amended: revoking with a scopes list removes every grant to the
requester that shares any scope with the revoked set — the whole
grant, not just the overlapping scopes. After granting scopes a and b
together and revoking a, consent is gone for b as well as a, for every
prior store state and at every check time. -/
theorem C5_amended_revoke_removes_whole_grants (store : ConsentStore)
    (t0 t : ℤ) (u r a b : String) (ei : Option ℤ) :
    checkConsent (revokeConsent (grantConsent store t0 u r [a, b] ei)
      u r (some [a])) t u r a = false ∧
    checkConsent (revokeConsent (grantConsent store t0 u r [a, b] ei)
      u r (some [a])) t u r b = false := by
  have key : ∀ s, s ∈ ([a, b] : List String) →
      checkConsent (revokeConsent (grantConsent store t0 u r [a, b] ei)
        u r (some [a])) t u r s = false := by
    intro s hs
    unfold checkConsent revokeConsent grantConsent
    rw [if_pos rfl, if_pos rfl, List.any_eq_false]
    intro c hc hp
    rw [List.mem_filter] at hc
    obtain ⟨hmem, hq⟩ := hc
    simp only [Bool.and_eq_true, beq_iff_eq, decide_eq_true_eq] at hp
    obtain ⟨⟨hgr, hcont⟩, -⟩ := hp
    rw [List.mem_append] at hmem
    rcases hmem with hmem | hmem
    · rw [List.mem_filter] at hmem
      obtain ⟨-, hkeep⟩ := hmem
      simp [hgr] at hkeep
      have hsc : s ∈ c.scopes := by simpa using hcont
      rcases (by simpa using hs : s = a ∨ s = b) with h | h
      · exact hkeep.1 (h ▸ hsc)
      · exact hkeep.2 (h ▸ hsc)
    · simp only [List.mem_singleton] at hmem
      subst hmem
      simp at hq
  exact ⟨key a (by simp), key b (by simp)⟩

/-- C6 counterexample: issuing the same facts with the same key at
clock 0 and at clock 1000 yields different credentialSubject payloads
(the compliance block records the issuance clock in verifiedAt), so
the claim that only issuanceDate and the signature differ is false of
this code. -/
theorem C6_counterexample :
    (issueProofOfFunds testIssuer 0 "did:ethr:0xH"
      testPOF).issuanceDate = 0 ∧
    (issueProofOfFunds testIssuer 1000 "did:ethr:0xH"
      testPOF).issuanceDate = 1000 ∧
    (issueProofOfFunds testIssuer 0 "did:ethr:0xH"
      testPOF).credentialSubject ≠
      (issueProofOfFunds testIssuer 1000 "did:ethr:0xH"
        testPOF).credentialSubject := by
  decide

/-- C6 amended: two issuances of the same facts with the same key
produce credentialSubject payloads identical up to
compliance.verifiedAt, which like issuanceDate records the issuance
clock; each document independently verifies at any time not past its
expiry. -/
theorem C6_amended_issuance_subject (st : VCIssuerState)
    (now1 now2 tv : ℤ) (holderDID : String) (pofData : POFData)
    (registry : String → Bool) (hv : tv ≤ pofData.expiry * 1000) :
    (issueProofOfFunds st now1 holderDID pofData).credentialSubject =
      { (issueProofOfFunds st now2 holderDID
          pofData).credentialSubject with
        compliance := { (issueProofOfFunds st now2 holderDID
            pofData).credentialSubject.compliance with
          verifiedAt := now1 } } ∧
    (issueProofOfFunds st now1 holderDID pofData).issuanceDate = now1 ∧
    (verifyCredential st registry tv
      (issueProofOfFunds st now1 holderDID pofData)).verified = true := by
  refine ⟨rfl, rfl, ?_⟩
  have hnl : ¬ (pofData.expiry * 1000 < tv) := not_lt.mpr hv
  simp [verifyCredential, verifyVCSignature, issueProofOfFunds, signVC,
    encodeVCValue, checkRevocationStatus, hnl]

/-- Witness for the amended C6 at concrete inputs: issuance at clocks
0 and 1000, verification at time 500. -/
theorem C6_amended_issuance_subject_witness :
    (issueProofOfFunds testIssuer 0 "did:ethr:0xH"
      testPOF).credentialSubject =
      { (issueProofOfFunds testIssuer 1000 "did:ethr:0xH"
          testPOF).credentialSubject with
        compliance := { (issueProofOfFunds testIssuer 1000 "did:ethr:0xH"
            testPOF).credentialSubject.compliance with
          verifiedAt := 0 } } ∧
    (issueProofOfFunds testIssuer 0 "did:ethr:0xH"
      testPOF).issuanceDate = 0 ∧
    (verifyCredential testIssuer testRevReg 500
      (issueProofOfFunds testIssuer 0 "did:ethr:0xH"
        testPOF)).verified = true :=
  C6_amended_issuance_subject testIssuer 0 1000 500 "did:ethr:0xH"
    testPOF testRevReg (by decide)

/-- The binary64 rounding of 2^53 + 1: the tie between the
representable neighbours 2^53 and 2^53 + 2 resolves to the even
significand, 2^53. -/
theorem doubleRound_succ_pow53 :
    doubleRound 9007199254740993 = 9007199254740992 := by
  norm_num [doubleRound, doubleRoundPos, floorLog2, pow2, rne, Nat.log2]

/-- 2^53 is exactly representable in binary64. -/
theorem doubleRound_pow53 :
    doubleRound 9007199254740992 = 9007199254740992 := by
  norm_num [doubleRound, doubleRoundPos, floorLog2, pow2, rne, Nat.log2]

/-- The decimal string 2^53 parses exactly. -/
theorem parseDec_pow53 :
    parseDec "9007199254740992" = some 9007199254740992 := by
  have h : parseDec "9007199254740992" =
      some ((1 : ℚ) * ((9007199254740992 : ℕ) : ℚ)) := rfl
  rw [h]
  norm_num

/-- parseFloat of the 2^53 amount string is exact. -/
theorem parseFloatQ_pow53 :
    parseFloatQ "9007199254740992" = some 9007199254740992 := by
  simp [parseFloatQ, parseDec_pow53, doubleRound_pow53]

/-- C7 counterexample: the caller asks for minAmount 2^53 + 1, which
JSON parsing rounds to the binary64 value 2^53; the stored amount
2^53 parses exactly; the float comparison 2^53 >= 2^53 passes and the
token verifies, although the exact decimal comparison
2^53 >= 2^53 + 1 is false — the claim of an exact arbitrary-precision
comparison with no rounding error at any scale is false of this code. -/
theorem C7_counterexample :
    doubleRound 9007199254740993 = 9007199254740992 ∧
    parseDec hugeToken.amount = some 9007199254740992 ∧
    ¬ ((9007199254740992 : ℚ) ≥ (9007199254740993 : ℚ)) ∧
    (verifyPOFToken hugeTokenStore 0 "t2"
      { requiredAsset := none
        minAmount := some (doubleRound 9007199254740993) }).valid =
      true := by
  refine ⟨doubleRound_succ_pow53, parseDec_pow53, by norm_num, ?_⟩
  rw [doubleRound_succ_pow53]
  simp [verifyPOFToken, show hugeTokenStore "t2" = some hugeToken from rfl,
    strTruthy, numTruthy, floatGe, parseFloatQ_pow53, hugeToken]

/-- C7 amended: with a nonzero minAmount, the amount check of
verifyPOFToken is the binary64 comparison
parseFloat(amount) >= minAmount; whenever the amount string parses to
a value that is exactly representable as a double, the token is valid
iff that value is >= the binary64 minAmount the handler received (the
JSON-parsed rounding of the callers decimal) and the compliance flags
are set — exactness holds only against the rounded minimum, not the
callers exact decimal. -/
theorem C7_amended_float_amount_check (store : String → Option POFData)
    (now : ℤ) (tokenId : String) (pofData : POFData) (m a : ℚ)
    (hstore : store tokenId = some pofData)
    (hparse : parseDec pofData.amount = some a)
    (hrepr : doubleRound a = a) (hm : m ≠ 0) :
    (verifyPOFToken store now tokenId
      { requiredAsset := none, minAmount := some m }).valid =
      (decide (a ≥ m) && pofData.kycCompliant &&
        pofData.sanctionsCleared) := by
  simp [verifyPOFToken, hstore, strTruthy, numTruthy, hm, floatGe,
    parseFloatQ, hparse, hrepr, Bool.and_assoc]

/-- Witness for the amended C7 at the 2^53 fixture. -/
theorem C7_amended_float_amount_check_witness :
    (verifyPOFToken hugeTokenStore 0 "t2"
      { requiredAsset := none, minAmount := some 9007199254740992 }).valid =
      (decide ((9007199254740992 : ℚ) ≥ (9007199254740992 : ℚ)) &&
        hugeToken.kycCompliant && hugeToken.sanctionsCleared) :=
  C7_amended_float_amount_check hugeTokenStore 0 "t2" hugeToken
    9007199254740992 9007199254740992 rfl parseDec_pow53
    doubleRound_pow53 (by norm_num)

end ClickBadass
